import Mathlib

/-!
Shallow embedding of `src/población.py`, a data-simulation script that
generates synthetic benzene-sensor readings, classifies them by severity,
tags them with an integrity hash, and bulk-loads them into a database table.

Modelling conventions:
* Python floats are modelled as rationals (`ℚ`); `round(x, 2)` / `round(x, 1)`
  are modelled as nearest-integer rounding of `100*x` / `10*x` (Python uses
  round-half-to-even on floats, this model rounds halves up; the two agree
  away from exact ties, which none of the claims touch).
* `datetime` instants are modelled as a count of seconds (`ℕ`); `.date()` and
  `.time()` become the quotient and remainder by 86400, so that calendar
  rendering is abstracted but the order and step structure is exact.
* `hashlib.md5(...).hexdigest()` and Python's `str` rendering of
  date/time/float values are external library functions, not repository code;
  they are parameters of the model (`HashReprs`), so every theorem about
  hashing holds for the real MD5 as an instance.
* The random draws of `random.uniform` are a parameter `draws : ℕ → Draws`
  giving the raw uniform outputs of each loop iteration.
* The database loader is modelled as the trace of effects it performs
  (queries answered by a `DBEnv`, prints, the batched insert, commit, closes)
  when the initial connection succeeds.
-/

namespace Poblacion

/-- Embedding of `clasificar_ppm` (src/población.py lines 39–55): maps a ppm
concentration to an integer severity tier 1..6 by upper-inclusive thresholds. -/
def clasificar_ppm (ppm : ℚ) : ℤ :=
  if ppm ≤ 1/2 then 1
  else if ppm ≤ 1 then 2
  else if ppm ≤ 10 then 3
  else if ppm ≤ 50 then 4
  else if ppm ≤ 500 then 5
  else 6

/-- One generated reading: the `row` dict built in
`generar_registros_simulados` (lines 108–127), fields in source order. -/
structure Row where
  fecha : ℕ
  hora : ℕ
  id_sensor : String
  id_micro : String
  id_linea : String
  id_fabrica : String
  ppm_benceno : ℚ
  id_clasificacion : ℤ
  geo_latitud : ℚ
  geo_longitud : ℚ
  geo_altitud : ℚ
  temperatura : ℚ
  humedad : ℚ
  estado_transmision : String
  timestamp_envio : ℕ
  observaciones : String
  hash_integridad : String
  origen_formato : String
deriving DecidableEq

/-- The external string-rendering and digest functions used by
`generar_hash_integridad`: Python's `str` on dates, times and floats, and
`hashlib.md5(...).hexdigest()`. They are library code, not repository code,
so the model quantifies over them. -/
structure HashReprs where
  md5 : String → String
  reprFecha : ℕ → String
  reprHora : ℕ → String
  reprQ : ℚ → String

/-- The `base_str` of `generar_hash_integridad` (line 63): the concatenation
of the rendered `fecha`, `hora`, `id_sensor` and `ppm_benceno` fields. -/
def base_str (h : HashReprs) (row : Row) : String :=
  h.reprFecha row.fecha ++ h.reprHora row.hora ++ row.id_sensor ++ h.reprQ row.ppm_benceno

/-- Embedding of `generar_hash_integridad` (lines 58–64): the digest of
`base_str`. -/
def generar_hash_integridad (h : HashReprs) (row : Row) : String :=
  h.md5 (base_str h row)

/-- The raw outputs of the six `random.uniform` calls of one loop iteration
of `generar_registros_simulados` (lines 88–100), in source order. -/
structure Draws where
  ppm : ℚ
  dLat : ℚ
  dLon : ℚ
  dAlt : ℚ
  temp : ℚ
  hum : ℚ

/-- Python `round(x, 2)` on the rational model. -/
def round2 (x : ℚ) : ℚ := (round (100 * x) : ℚ) / 100

/-- Python `round(x, 1)` on the rational model. -/
def round1 (x : ℚ) : ℚ := (round (10 * x) : ℚ) / 10

/-- The body of one iteration of the generation loop (lines 82–132): builds
the `row` dict from the current instant and this iteration's random draws,
then fills in `hash_integridad` from the row's own finalized fields. -/
def mkRow (h : HashReprs) (id_sensor id_micro id_linea id_fabrica : String)
    (instante : ℕ) (d : Draws) : Row :=
  let ppm := round2 d.ppm
  let row : Row :=
    { fecha := instante / 86400
      hora := instante % 86400
      id_sensor := id_sensor
      id_micro := id_micro
      id_linea := id_linea
      id_fabrica := id_fabrica
      ppm_benceno := ppm
      id_clasificacion := clasificar_ppm ppm
      geo_latitud := 62442/10000 + d.dLat
      geo_longitud := -755812/10000 + d.dLon
      geo_altitud := 1500 + d.dAlt
      temperatura := round1 d.temp
      humedad := round1 d.hum
      estado_transmision := "O"
      timestamp_envio := instante
      observaciones := ""
      hash_integridad := ""
      origen_formato := "simulacion_py" }
  { row with hash_integridad := generar_hash_integridad h row }

/-- The generation loop of `generar_registros_simulados`: `i` is the loop
index, `k` the number of remaining iterations, `instante` the current
instant; each iteration appends one row and advances `instante` by 10 s. -/
def genGo (h : HashReprs) (id_sensor id_micro id_linea id_fabrica : String)
    (draws : ℕ → Draws) (i : ℕ) (instante : ℕ) : ℕ → List Row
  | 0 => []
  | k + 1 =>
      mkRow h id_sensor id_micro id_linea id_fabrica instante (draws i) ::
        genGo h id_sensor id_micro id_linea id_fabrica draws (i + 1) (instante + 10) k

/-- Embedding of `generar_registros_simulados` (lines 67–137). -/
def generar_registros_simulados (h : HashReprs) (num_registros : ℕ)
    (id_sensor id_micro id_linea id_fabrica : String) (fecha_inicial : ℕ)
    (draws : ℕ → Draws) : List Row :=
  genGo h id_sensor id_micro id_linea id_fabrica draws 0 fecha_inicial num_registros

/-! ### The database loader -/

/-- Console messages printed by `insertar_en_postgres`, abstracted from their
literal Spanish text to their information content. -/
inductive Msg
  | disponibles (tabla : String) (ids : List String)
  | advertencia (configurado tabla alternativa : String)
  | errorConsulta (err : String)
  | continuandoInsercion
  | insertadosCount (n : ℕ)
deriving DecidableEq

/-- A value of one column of one inserted tuple. -/
inductive Cell
  | n (v : ℕ)
  | s (v : String)
  | q (v : ℚ)
  | z (v : ℤ)
deriving DecidableEq

/-- The tuple built from one row for the batched insert (lines 232–254),
columns in source order. -/
def rowTuple (r : Row) : List Cell :=
  [.n r.fecha, .n r.hora, .s r.id_sensor, .s r.id_micro, .s r.id_linea,
   .s r.id_fabrica, .q r.ppm_benceno, .z r.id_clasificacion, .q r.geo_latitud,
   .q r.geo_longitud, .q r.geo_altitud, .q r.temperatura, .q r.humedad,
   .s r.estado_transmision, .n ( Row.timestamp_envio r), .s r.observaciones,
   .s r.hash_integridad, .s r.origen_formato]

/-- The column list of the `INSERT` statement (lines 208–229); `id_lectura`
is serial and deliberately absent. -/
def insertColumns : List String :=
  ["fecha", "hora", "id_sensor", "id_micro", "id_linea", "id_fabrica",
   "ppm_benceno", "id_clasificacion", "geo_latitud", "geo_longitud",
   "geo_altitud", "temperatura", "humedad", "estado_transmision",
   "timestamp_envio", "observaciones", "hash_integridad", "origen_formato"]

/-- The canonical field order of a Reading: the key order of the `row` dict
built by the generator (lines 108–127). -/
def canonicalRowFields : List String :=
  ["fecha", "hora", "id_sensor", "id_micro", "id_linea", "id_fabrica",
   "ppm_benceno", "id_clasificacion", "geo_latitud", "geo_longitud",
   "geo_altitud", "temperatura", "humedad", "estado_transmision",
   "timestamp_envio", "observaciones", "hash_integridad", "origen_formato"]

/-- The configured equipment identifiers (lines 24–27). -/
structure Cfg where
  id_sensor : String
  id_micro : String
  id_linea : String
  id_fabrica : String

/-- The database's answers to the four reference-table validation queries
(lines 176–190); each `SELECT ... LIMIT 10` either returns a list of
identifiers or raises. -/
structure DBEnv where
  sensores : Except String (List String)
  micros : Except String (List String)
  lineas : Except String (List String)
  fabricas : Except String (List String)

/-- Python `l[0] if l else 'NINGUNO'` (lines 195–201): the first available
identifier, or the placeholder when the reference set is empty. -/
def primeraDisponible (l : List String) : String :=
  match l with
  | [] => "NINGUNO"
  | x :: _ => x

/-- One `if <id> not in <tabla>: print(ADVERTENCIA ...)` check. -/
def chk (configurado tabla : String) (l : List String) : List Msg :=
  if configurado ∈ l then [] else [.advertencia configurado tabla (primeraDisponible l)]

/-- The `try` block of `insertar_en_postgres` (lines 175–205): the four
validation queries run in order; the first failure aborts the block and is
caught, logged, and followed by the continue-with-insert notice. If all
succeed, the available identifiers are printed and the four membership
checks run. -/
def validationMsgs (cfg : Cfg) (env : DBEnv) : List Msg :=
  match env.sensores with
  | .error e => [.errorConsulta e, .continuandoInsercion]
  | .ok sensores =>
    match env.micros with
    | .error e => [.disponibles "sensor" sensores, .errorConsulta e, .continuandoInsercion]
    | .ok micros =>
      match env.lineas with
      | .error e =>
          [.disponibles "sensor" sensores, .disponibles "microcontrolador" micros,
           .errorConsulta e, .continuandoInsercion]
      | .ok lineas =>
        match env.fabricas with
        | .error e =>
            [.disponibles "sensor" sensores, .disponibles "microcontrolador" micros,
             .disponibles "linea" lineas, .errorConsulta e, .continuandoInsercion]
        | .ok fabricas =>
            [.disponibles "sensor" sensores, .disponibles "microcontrolador" micros,
             .disponibles "linea" lineas, .disponibles "fabrica" fabricas]
            ++ chk cfg.id_sensor "sensor" sensores
            ++ chk cfg.id_micro "microcontrolador" micros
            ++ chk cfg.id_linea "linea" lineas
            ++ chk cfg.id_fabrica "fabrica" fabricas

/-- Observable effects of `insertar_en_postgres`, in order. -/
inductive Event
  | connect
  | openCursor
  | print (m : Msg)
  | executeValues (cols : List String) (values : List (List Cell))
  | commit
  | closeCursor
  | closeConn
deriving DecidableEq

/-- Embedding of `insertar_en_postgres` (lines 170–260) as the trace of
effects it performs when the initial connection succeeds: connect, open a
cursor, run the advisory validation (printing its messages), then the single
batched insert of all rows, one commit, close cursor, close connection, and
the final count message. -/
def insertar_en_postgres (cfg : Cfg) (env : DBEnv) (registros : List Row) : List Event :=
  [Event.connect, Event.openCursor]
    ++ (validationMsgs cfg env).map Event.print
    ++ [Event.executeValues insertColumns (registros.map rowTuple),
        Event.commit, Event.closeCursor, Event.closeConn,
        Event.print (.insertadosCount registros.length)]

/-! ### Helper lemmas about the generator -/

theorem round2_bounds {x : ℚ} (h0 : 0 ≤ x) (h80 : x ≤ 80) :
    0 ≤ round2 x ∧ round2 x ≤ 80 := by
  have hlo : (0 : ℤ) ≤ round (100 * x) := by
    calc (0 : ℤ) = round ((0 : ℤ) : ℚ) := by rw [round_intCast]
    _ ≤ round (100 * x) := by
        rw [round_eq, round_eq]
        exact Int.floor_mono (by push_cast; linarith)
  have hhi : round (100 * x) ≤ (8000 : ℤ) := by
    calc round (100 * x) ≤ round ((8000 : ℤ) : ℚ) := by
          rw [round_eq, round_eq]
          exact Int.floor_mono (by push_cast; linarith)
    _ = 8000 := round_intCast 8000
  constructor
  · exact div_nonneg (by exact_mod_cast hlo) (by norm_num)
  · rw [round2, div_le_iff₀ (by norm_num : (0:ℚ) < 100)]
    calc ((round (100*x) : ℤ) : ℚ) ≤ (8000 : ℚ) := by exact_mod_cast hhi
    _ = 80 * 100 := by norm_num

theorem genGo_length (h : HashReprs) (s m l f : String) (draws : ℕ → Draws) :
    ∀ (k i t : ℕ), (genGo h s m l f draws i t k).length = k := by
  intro k
  induction k with
  | zero => intro i t; rfl
  | succ k ih => intro i t; simp [genGo, ih]

theorem genGo_getElem? (h : HashReprs) (s m l f : String) (draws : ℕ → Draws) :
    ∀ (k i t j : ℕ), j < k →
      (genGo h s m l f draws i t k)[j]? =
        some (mkRow h s m l f (t + 10 * j) (draws (i + j))) := by
  intro k
  induction k with
  | zero => intro i t j hj; omega
  | succ k ih =>
      intro i t j hj
      cases j with
      | zero => simp [genGo]
      | succ j =>
          have e1 : t + 10 + 10 * j = t + 10 * (j + 1) := by ring
          have e2 : i + 1 + j = i + (j + 1) := by omega
          simp only [genGo, List.getElem?_cons_succ]
          rw [ih (i + 1) (t + 10) j (by omega), e1, e2]

theorem mkRow_fecha (h : HashReprs) (s m l f : String) (t : ℕ) (d : Draws) :
    (mkRow h s m l f t d).fecha = t / 86400 := rfl

theorem mkRow_hora (h : HashReprs) (s m l f : String) (t : ℕ) (d : Draws) :
    (mkRow h s m l f t d).hora = t % 86400 := rfl

theorem mkRow_ppm (h : HashReprs) (s m l f : String) (t : ℕ) (d : Draws) :
    (mkRow h s m l f t d).ppm_benceno = round2 d.ppm := rfl

theorem mkRow_clasif (h : HashReprs) (s m l f : String) (t : ℕ) (d : Draws) :
    (mkRow h s m l f t d).id_clasificacion = clasificar_ppm (round2 d.ppm) := rfl

/-! ### Claims about the classifier -/

/-- C1: the classifier maps a concentration to a severity tier by fixed
upper-inclusive thresholds: for every `v`, `clasificar_ppm v` is 1 on
`v ≤ 0.5`, 2 on `0.5 < v ≤ 1`, 3 on `1 < v ≤ 10`, 4 on `10 < v ≤ 50`, 5 on
`50 < v ≤ 500` and 6 on `v > 500`; in particular the seven sample values of
the spec classify as stated. -/
theorem C1_clasificar_ppm_thresholds (v : ℚ) :
    (v ≤ 1/2 → clasificar_ppm v = 1) ∧
    (1/2 < v ∧ v ≤ 1 → clasificar_ppm v = 2) ∧
    (1 < v ∧ v ≤ 10 → clasificar_ppm v = 3) ∧
    (10 < v ∧ v ≤ 50 → clasificar_ppm v = 4) ∧
    (50 < v ∧ v ≤ 500 → clasificar_ppm v = 5) ∧
    (500 < v → clasificar_ppm v = 6) ∧
    clasificar_ppm (1/2) = 1 ∧ clasificar_ppm (51/100) = 2 ∧ clasificar_ppm 1 = 2 ∧
    clasificar_ppm 10 = 3 ∧ clasificar_ppm 50 = 4 ∧ clasificar_ppm 500 = 5 ∧
    clasificar_ppm (50001/100) = 6 := by
  unfold clasificar_ppm
  refine ⟨?_, ?_, ?_, ?_, ?_, ?_, by norm_num, by norm_num, by norm_num,
    by norm_num, by norm_num, by norm_num, by norm_num⟩
  all_goals
    intro hv
    split_ifs <;> first | rfl | (exfalso; push_neg at *; obtain ⟨h1, h2⟩ := hv <;> linarith) | (exfalso; push_neg at *; linarith)

/-- Witness for C1 at `v = 0.51`: the second tier's hypotheses hold and the
classifier returns 2 there. -/
theorem C1_clasificar_ppm_thresholds_witness :
    ((1:ℚ)/2 < 51/100 ∧ (51:ℚ)/100 ≤ 1) ∧ clasificar_ppm (51/100) = 2 :=
  ⟨⟨by norm_num, by norm_num⟩,
    (C1_clasificar_ppm_thresholds (51/100)).2.1 ⟨by norm_num, by norm_num⟩⟩

/-- C6: the classifier is total: every rational input, negative ones
included, yields a tier in {1,...,6}, and every negative input falls into
tier 1. -/
theorem C6_clasificar_ppm_total (v : ℚ) :
    clasificar_ppm v ∈ ({1, 2, 3, 4, 5, 6} : Set ℤ) ∧ (v < 0 → clasificar_ppm v = 1) := by
  constructor
  · unfold clasificar_ppm; split_ifs <;> simp
  · intro hv
    have h1 : v ≤ 1/2 := by linarith
    rw [clasificar_ppm, if_pos h1]

/-- Witness for C6 at `v = -3`. -/
theorem C6_clasificar_ppm_total_witness :
    clasificar_ppm (-3) ∈ ({1, 2, 3, 4, 5, 6} : Set ℤ) ∧ clasificar_ppm (-3) = 1 :=
  ⟨(C6_clasificar_ppm_total (-3)).1, (C6_clasificar_ppm_total (-3)).2 (by norm_num)⟩

/-! ### Claims about the generator -/

/-- A concrete instantiation of the external rendering/digest functions,
used to evaluate the model on concrete inputs. -/
def hashTriv : HashReprs :=
  { md5 := fun st => st
    reprFecha := fun n => toString n
    reprHora := fun n => toString n
    reprQ := fun q => toString q.num }

/-- A concrete random source for evaluating the model on concrete inputs. -/
def drawsTriv : ℕ → Draws := fun _ => ⟨40, 0, 0, 0, 20, 50⟩

/-- C2: generating N records yields exactly N Readings, the i-th carrying
the date and time of the starting instant plus `10*i` seconds, so the
sequence is strictly increasing in `(fecha, hora)`. -/
theorem C2_generator_count_and_times (h : HashReprs) (num : ℕ)
    (s m l f : String) (t0 : ℕ) (draws : ℕ → Draws) :
    (generar_registros_simulados h num s m l f t0 draws).length = num ∧
    (∀ i r, (generar_registros_simulados h num s m l f t0 draws)[i]? = some r →
      r.fecha = (t0 + 10 * i) / 86400 ∧ r.hora = (t0 + 10 * i) % 86400) ∧
    (∀ (i j : ℕ) (ri rj : Row), i < j →
      (generar_registros_simulados h num s m l f t0 draws)[i]? = some ri →
      (generar_registros_simulados h num s m l f t0 draws)[j]? = some rj →
      ri.fecha < rj.fecha ∨ (ri.fecha = rj.fecha ∧ ri.hora < rj.hora)) := by
  have hlen := genGo_length h s m l f draws num 0 t0
  have hval : ∀ i r, (generar_registros_simulados h num s m l f t0 draws)[i]? = some r →
      r.fecha = (t0 + 10 * i) / 86400 ∧ r.hora = (t0 + 10 * i) % 86400 := by
    intro i r hr
    have hi : i < num := by
      by_contra hni
      push_neg at hni
      rw [List.getElem?_eq_none (by rw [generar_registros_simulados, hlen]; exact hni)] at hr
      exact Option.noConfusion hr
    rw [generar_registros_simulados, genGo_getElem? h s m l f draws num 0 t0 i hi] at hr
    obtain rfl : mkRow h s m l f (t0 + 10 * i) (draws (0 + i)) = r := Option.some.inj hr
    exact ⟨mkRow_fecha .., mkRow_hora ..⟩
  refine ⟨hlen, hval, ?_⟩
  intro i j ri rj hij hri hrj
  obtain ⟨hfi, hhi⟩ := hval i ri hri
  obtain ⟨hfj, hhj⟩ := hval j rj hrj
  rw [hfi, hhi, hfj, hhj]
  omega

/-- Witness for C2 with N = 3 starting at 28800 s (08:00:00): three rows are
produced, row 1 reads 08:00:10, and rows 0 and 1 strictly increase. -/
theorem C2_generator_count_and_times_witness :
    (generar_registros_simulados hashTriv 3 "A1S01" "A1M01" "A1" "A" 28800 drawsTriv).length = 3 ∧
    ((mkRow hashTriv "A1S01" "A1M01" "A1" "A" 28810 (drawsTriv 1)).fecha = (28800 + 10 * 1) / 86400 ∧
      (mkRow hashTriv "A1S01" "A1M01" "A1" "A" 28810 (drawsTriv 1)).hora = (28800 + 10 * 1) % 86400) ∧
    ((mkRow hashTriv "A1S01" "A1M01" "A1" "A" 28800 (drawsTriv 0)).fecha <
        (mkRow hashTriv "A1S01" "A1M01" "A1" "A" 28810 (drawsTriv 1)).fecha ∨
      ((mkRow hashTriv "A1S01" "A1M01" "A1" "A" 28800 (drawsTriv 0)).fecha =
          (mkRow hashTriv "A1S01" "A1M01" "A1" "A" 28810 (drawsTriv 1)).fecha ∧
        (mkRow hashTriv "A1S01" "A1M01" "A1" "A" 28800 (drawsTriv 0)).hora <
          (mkRow hashTriv "A1S01" "A1M01" "A1" "A" 28810 (drawsTriv 1)).hora)) :=
  ⟨(C2_generator_count_and_times hashTriv 3 "A1S01" "A1M01" "A1" "A" 28800 drawsTriv).1,
   (C2_generator_count_and_times hashTriv 3 "A1S01" "A1M01" "A1" "A" 28800 drawsTriv).2.1
      1 _ rfl,
   (C2_generator_count_and_times hashTriv 3 "A1S01" "A1M01" "A1" "A" 28800 drawsTriv).2.2
      0 1 _ _ (by norm_num) rfl rfl⟩

theorem genGo_clasif (h : HashReprs) (s m l f : String) (draws : ℕ → Draws) :
    ∀ (k i t : ℕ), ∀ r ∈ genGo h s m l f draws i t k,
      r.id_clasificacion = clasificar_ppm r.ppm_benceno := by
  intro k
  induction k with
  | zero => intro i t r hr; simp [genGo] at hr
  | succ k ih =>
      intro i t r hr
      simp only [genGo, List.mem_cons] at hr
      rcases hr with rfl | hr
      · rw [mkRow_clasif, mkRow_ppm]
      · exact ih (i + 1) (t + 10) r hr

/-- C5: every generated Reading stores the classification of its own stored
concentration: `id_clasificacion = clasificar_ppm ppm_benceno` at every
index of every generated sequence. -/
theorem C5_clasificacion_consistente (h : HashReprs) (num : ℕ)
    (s m l f : String) (t0 : ℕ) (draws : ℕ → Draws) :
    ∀ r ∈ generar_registros_simulados h num s m l f t0 draws,
      r.id_clasificacion = clasificar_ppm r.ppm_benceno :=
  genGo_clasif h s m l f draws num 0 t0

/-- Witness for C5 on a concrete one-row generation. -/
theorem C5_clasificacion_consistente_witness :
    (mkRow hashTriv "A1S01" "A1M01" "A1" "A" 28800 (drawsTriv 0)).id_clasificacion =
      clasificar_ppm (mkRow hashTriv "A1S01" "A1M01" "A1" "A" 28800 (drawsTriv 0)).ppm_benceno :=
  C5_clasificacion_consistente hashTriv 1 "A1S01" "A1M01" "A1" "A" 28800 drawsTriv
    _ (List.mem_cons_self _ _)

theorem genGo_ppm_range (h : HashReprs) (s m l f : String) (draws : ℕ → Draws)
    (hd : ∀ i, 0 ≤ (draws i).ppm ∧ (draws i).ppm ≤ 80) :
    ∀ (k i t : ℕ), ∀ r ∈ genGo h s m l f draws i t k,
      0 ≤ r.ppm_benceno ∧ r.ppm_benceno ≤ 80 := by
  intro k
  induction k with
  | zero => intro i t r hr; simp [genGo] at hr
  | succ k ih =>
      intro i t r hr
      simp only [genGo, List.mem_cons] at hr
      rcases hr with rfl | hr
      · rw [mkRow_ppm]
        exact round2_bounds (hd i).1 (hd i).2
      · exact ih (i + 1) (t + 10) r hr

/-- C9: when each raw uniform draw lies in [0, 80] (the fixed range of
`random.uniform(0, 80)`), every generated Reading's `ppm_benceno` — the draw
rounded to two decimals — lies in [0, 80]. -/
theorem C9_ppm_no_negativo (h : HashReprs) (num : ℕ)
    (s m l f : String) (t0 : ℕ) (draws : ℕ → Draws)
    (hd : ∀ i, 0 ≤ (draws i).ppm ∧ (draws i).ppm ≤ 80) :
    ∀ r ∈ generar_registros_simulados h num s m l f t0 draws,
      0 ≤ r.ppm_benceno ∧ r.ppm_benceno ≤ 80 :=
  genGo_ppm_range h s m l f draws hd num 0 t0

/-- Witness for C9 on a concrete one-row generation with draw 40. -/
theorem C9_ppm_no_negativo_witness :
    0 ≤ (mkRow hashTriv "A1S01" "A1M01" "A1" "A" 28800 (drawsTriv 0)).ppm_benceno ∧
      (mkRow hashTriv "A1S01" "A1M01" "A1" "A" 28800 (drawsTriv 0)).ppm_benceno ≤ 80 :=
  C9_ppm_no_negativo hashTriv 1 "A1S01" "A1M01" "A1" "A" 28800 drawsTriv
    (fun _ => ⟨by norm_num [drawsTriv], by norm_num [drawsTriv]⟩)
    _ (List.mem_cons_self _ _)

/-! ### Claims about the integrity hash -/

theorem append4_inj {a1 b1 c1 d1 a2 b2 c2 d2 : String}
    (h : a1 ++ b1 ++ c1 ++ d1 = a2 ++ b2 ++ c2 ++ d2)
    (ha : a1.length = a2.length) (hb : b1.length = b2.length)
    (hc : c1.length = c2.length) :
    a1 = a2 ∧ b1 = b2 ∧ c1 = c2 ∧ d1 = d2 := by
  have hd : (a1 ++ b1 ++ c1 ++ d1).data = (a2 ++ b2 ++ c2 ++ d2).data := by rw [h]
  simp only [String.data_append] at hd
  simp only [List.append_assoc] at hd
  obtain ⟨e1, hrest⟩ := List.append_inj hd ha
  obtain ⟨e2, hrest2⟩ := List.append_inj hrest hb
  obtain ⟨e3, e4⟩ := List.append_inj hrest2 hc
  exact ⟨String.ext e1, String.ext e2, String.ext e3, String.ext e4⟩

/-- C4: the integrity hash is a function of exactly the four fields
`(fecha, hora, id_sensor, ppm_benceno)`: two rows agreeing on those four
fields hash identically whatever their other fields; and — for a digest that
is injective and renderings that are discriminating and length-stable at the
inputs at hand, as MD5 and Python's fixed-width date/time renderings are on
typical test inputs — two rows with equal hashes agree on all four fields,
so changing any one of them changes the digest. -/
theorem C4_hash_integridad_campos (h : HashReprs) :
    (∀ r1 r2 : Row, r1.fecha = r2.fecha → r1.hora = r2.hora →
      r1.id_sensor = r2.id_sensor → r1.ppm_benceno = r2.ppm_benceno →
      generar_hash_integridad h r1 = generar_hash_integridad h r2) ∧
    (∀ r1 r2 : Row, Function.Injective h.md5 →
      (h.reprFecha r1.fecha).length = (h.reprFecha r2.fecha).length →
      (h.reprHora r1.hora).length = (h.reprHora r2.hora).length →
      r1.id_sensor.length = r2.id_sensor.length →
      (h.reprFecha r1.fecha = h.reprFecha r2.fecha → r1.fecha = r2.fecha) →
      (h.reprHora r1.hora = h.reprHora r2.hora → r1.hora = r2.hora) →
      (h.reprQ r1.ppm_benceno = h.reprQ r2.ppm_benceno → r1.ppm_benceno = r2.ppm_benceno) →
      generar_hash_integridad h r1 = generar_hash_integridad h r2 →
      r1.fecha = r2.fecha ∧ r1.hora = r2.hora ∧ r1.id_sensor = r2.id_sensor ∧
        r1.ppm_benceno = r2.ppm_benceno) := by
  constructor
  · intro r1 r2 h1 h2 h3 h4
    unfold generar_hash_integridad base_str
    rw [h1, h2, h3, h4]
  · intro r1 r2 hmd5 hlf hlh hls hif hih hiq heq
    have hbase : base_str h r1 = base_str h r2 := hmd5 heq
    unfold base_str at hbase
    obtain ⟨e1, e2, e3, e4⟩ := append4_inj hbase hlf hlh hls
    exact ⟨hif e1, hih e2, e3, hiq e4⟩

/-- A concrete generated row for evaluating the model. -/
def rowA : Row := mkRow hashTriv "A1S01" "A1M01" "A1" "A" 28800 (drawsTriv 0)

/-- `rowA` with a different `observaciones` field: it agrees with `rowA` on
the four hashed fields but not on all fields. -/
def rowB : Row := { rowA with observaciones := "nota" }

/-- Witness for C4: `rowA` and `rowB` agree on the four hashed fields and
hash identically; and the discriminating direction applied at `rowA` against
itself with the identity digest recovers the four field equalities. -/
theorem C4_hash_integridad_campos_witness :
    generar_hash_integridad hashTriv rowA = generar_hash_integridad hashTriv rowB ∧
    (rowA.fecha = rowA.fecha ∧ rowA.hora = rowA.hora ∧
      rowA.id_sensor = rowA.id_sensor ∧ rowA.ppm_benceno = rowA.ppm_benceno) :=
  ⟨(C4_hash_integridad_campos hashTriv).1 rowA rowB rfl rfl rfl rfl,
   (C4_hash_integridad_campos hashTriv).2 rowA rowA (fun _ _ hh => hh) rfl rfl rfl
     (fun _ => rfl) (fun _ => rfl) (fun _ => rfl) rfl⟩

/-! ### Claims about the database loader -/

/-- Recognizer of the batched-insert event. -/
def isExecuteValues : Event → Bool
  | .executeValues _ _ => true
  | _ => false

theorem filter_exec (cfg : Cfg) (env : DBEnv) (registros : List Row) :
    (insertar_en_postgres cfg env registros).filter isExecuteValues =
      [Event.executeValues insertColumns (registros.map rowTuple)] := by
  unfold insertar_en_postgres
  simp only [List.filter_append]
  have hm : ((validationMsgs cfg env).map Event.print).filter isExecuteValues = [] := by
    simp [List.filter_eq_nil_iff, isExecuteValues]
  rw [hm]
  simp [isExecuteValues]

/-- C3: when every validation query succeeds and a configured identifier is
absent from its reference set, the loader prints a warning naming the first
available alternative, but the batched insert is still exactly the original
rows: its only `executeValues` event carries `registros.map rowTuple`, whose
tuples hold each row's own identifiers in columns 2–5. -/
theorem C3_advertencia_sin_sustitucion (cfg : Cfg) (env : DBEnv) (registros : List Row)
    (sensores micros lineas fabricas : List String)
    (h1 : env.sensores = .ok sensores) (h2 : env.micros = .ok micros)
    (h3 : env.lineas = .ok lineas) (h4 : env.fabricas = .ok fabricas) :
    (cfg.id_sensor ∉ sensores →
      Event.print (.advertencia cfg.id_sensor "sensor" (primeraDisponible sensores)) ∈
        insertar_en_postgres cfg env registros) ∧
    (cfg.id_micro ∉ micros →
      Event.print (.advertencia cfg.id_micro "microcontrolador" (primeraDisponible micros)) ∈
        insertar_en_postgres cfg env registros) ∧
    (cfg.id_linea ∉ lineas →
      Event.print (.advertencia cfg.id_linea "linea" (primeraDisponible lineas)) ∈
        insertar_en_postgres cfg env registros) ∧
    (cfg.id_fabrica ∉ fabricas →
      Event.print (.advertencia cfg.id_fabrica "fabrica" (primeraDisponible fabricas)) ∈
        insertar_en_postgres cfg env registros) ∧
    (insertar_en_postgres cfg env registros).filter isExecuteValues =
      [Event.executeValues insertColumns (registros.map rowTuple)] ∧
    (∀ r ∈ registros,
      (rowTuple r)[2]? = some (.s r.id_sensor) ∧ (rowTuple r)[3]? = some (.s r.id_micro) ∧
      (rowTuple r)[4]? = some (.s r.id_linea) ∧ (rowTuple r)[5]? = some (.s r.id_fabrica)) := by
  refine ⟨?_, ?_, ?_, ?_, filter_exec cfg env registros, ?_⟩
  · intro habs
    simp [insertar_en_postgres, validationMsgs, h1, h2, h3, h4, chk, habs]
  · intro habs
    simp [insertar_en_postgres, validationMsgs, h1, h2, h3, h4, chk, habs]
  · intro habs
    simp [insertar_en_postgres, validationMsgs, h1, h2, h3, h4, chk, habs]
  · intro habs
    simp [insertar_en_postgres, validationMsgs, h1, h2, h3, h4, chk, habs]
  · intro r _
    exact ⟨rfl, rfl, rfl, rfl⟩

/-- Witness for C3: with reference set `["B1S01"]` and configured sensor
`"A1S01"`, the warning names `"B1S01"` and the insert event carries the
original rows. -/
theorem C3_advertencia_sin_sustitucion_witness :
    (Event.print (.advertencia "A1S01" "sensor" (primeraDisponible ["B1S01"])) ∈
      insertar_en_postgres ⟨"A1S01", "A1M01", "A1", "A"⟩
        ⟨.ok ["B1S01"], .ok ["A1M01"], .ok ["A1"], .ok ["A"]⟩ []) ∧
    (insertar_en_postgres ⟨"A1S01", "A1M01", "A1", "A"⟩
        ⟨.ok ["B1S01"], .ok ["A1M01"], .ok ["A1"], .ok ["A"]⟩ []).filter isExecuteValues =
      [Event.executeValues insertColumns (([] : List Row).map rowTuple)] :=
  ⟨(C3_advertencia_sin_sustitucion ⟨"A1S01", "A1M01", "A1", "A"⟩
      ⟨.ok ["B1S01"], .ok ["A1M01"], .ok ["A1"], .ok ["A"]⟩ []
      ["B1S01"] ["A1M01"] ["A1"] ["A"] rfl rfl rfl rfl).1 (by decide),
   (C3_advertencia_sin_sustitucion ⟨"A1S01", "A1M01", "A1", "A"⟩
      ⟨.ok ["B1S01"], .ok ["A1M01"], .ok ["A1"], .ok ["A"]⟩ []
      ["B1S01"] ["A1M01"] ["A1"] ["A"] rfl rfl rfl rfl).2.2.2.2.1⟩

/-- C7: if any validation query fails, the error is logged, the loader
announces it is continuing, and the batched insert still happens with
exactly the original rows; the insert event does not depend on the query
answers at all. -/
theorem C7_error_validacion_no_impide_insercion (cfg : Cfg) (env : DBEnv)
    (registros : List Row)
    (hfail : (∃ e, env.sensores = .error e) ∨ (∃ e, env.micros = .error e) ∨
      (∃ e, env.lineas = .error e) ∨ (∃ e, env.fabricas = .error e)) :
    (∃ e, Event.print (.errorConsulta e) ∈ insertar_en_postgres cfg env registros ∧
      Event.print .continuandoInsercion ∈ insertar_en_postgres cfg env registros) ∧
    (insertar_en_postgres cfg env registros).filter isExecuteValues =
      [Event.executeValues insertColumns (registros.map rowTuple)] ∧
    (∀ env' : DBEnv,
      (insertar_en_postgres cfg env registros).filter isExecuteValues =
        (insertar_en_postgres cfg env' registros).filter isExecuteValues) := by
  refine ⟨?_, filter_exec cfg env registros, ?_⟩
  · obtain ⟨qs, qm, ql, qf⟩ := env
    rcases qs with e | sensores
    · exact ⟨e, by simp [insertar_en_postgres, validationMsgs],
        by simp [insertar_en_postgres, validationMsgs]⟩
    · rcases qm with e | micros
      · exact ⟨e, by simp [insertar_en_postgres, validationMsgs],
          by simp [insertar_en_postgres, validationMsgs]⟩
      · rcases ql with e | lineas
        · exact ⟨e, by simp [insertar_en_postgres, validationMsgs],
            by simp [insertar_en_postgres, validationMsgs]⟩
        · rcases qf with e | fabricas
          · exact ⟨e, by simp [insertar_en_postgres, validationMsgs],
              by simp [insertar_en_postgres, validationMsgs]⟩
          · exfalso
            rcases hfail with ⟨e, he⟩ | ⟨e, he⟩ | ⟨e, he⟩ | ⟨e, he⟩ <;>
              exact Except.noConfusion he
  · intro env'
    rw [filter_exec cfg env registros, filter_exec cfg env' registros]

/-- Witness for C7: a failing sensor query is logged and the (empty) insert
still happens. -/
theorem C7_error_validacion_no_impide_insercion_witness :
    (∃ e, Event.print (.errorConsulta e) ∈
        insertar_en_postgres ⟨"A1S01", "A1M01", "A1", "A"⟩
          ⟨.error "tabla ausente", .ok [], .ok [], .ok []⟩ [] ∧
      Event.print .continuandoInsercion ∈
        insertar_en_postgres ⟨"A1S01", "A1M01", "A1", "A"⟩
          ⟨.error "tabla ausente", .ok [], .ok [], .ok []⟩ []) ∧
    (insertar_en_postgres ⟨"A1S01", "A1M01", "A1", "A"⟩
        ⟨.error "tabla ausente", .ok [], .ok [], .ok []⟩ []).filter isExecuteValues =
      [Event.executeValues insertColumns (([] : List Row).map rowTuple)] :=
  ⟨(C7_error_validacion_no_impide_insercion ⟨"A1S01", "A1M01", "A1", "A"⟩
      ⟨.error "tabla ausente", .ok [], .ok [], .ok []⟩ []
      (Or.inl ⟨"tabla ausente", rfl⟩)).1,
   (C7_error_validacion_no_impide_insercion ⟨"A1S01", "A1M01", "A1", "A"⟩
      ⟨.error "tabla ausente", .ok [], .ok [], .ok []⟩ []
      (Or.inl ⟨"tabla ausente", rfl⟩)).2.1⟩

/-- C8: for every environment and row list, the loader's trace is connect,
open cursor, some prints, then a single batched insert of all rows with the
18 columns in the Reading's canonical order (the serial primary key absent),
one commit, close cursor, close connection, and the count message; commit
and the closes each occur exactly once. -/
theorem C8_insercion_unica_y_orden (cfg : Cfg) (env : DBEnv) (registros : List Row) :
    (∃ msgs : List Msg,
      insertar_en_postgres cfg env registros =
        [Event.connect, Event.openCursor] ++ msgs.map Event.print ++
          [Event.executeValues insertColumns (registros.map rowTuple),
           Event.commit, Event.closeCursor, Event.closeConn,
           Event.print (.insertadosCount registros.length)]) ∧
    insertColumns = canonicalRowFields ∧
    insertColumns =
      ["fecha", "hora", "id_sensor", "id_micro", "id_linea", "id_fabrica",
       "ppm_benceno", "id_clasificacion", "geo_latitud", "geo_longitud",
       "geo_altitud", "temperatura", "humedad", "estado_transmision",
       "timestamp_envio", "observaciones", "hash_integridad", "origen_formato"] ∧
    (insertar_en_postgres cfg env registros).filter isExecuteValues =
      [Event.executeValues insertColumns (registros.map rowTuple)] ∧
    (insertar_en_postgres cfg env registros).count Event.commit = 1 ∧
    (insertar_en_postgres cfg env registros).count Event.closeCursor = 1 ∧
    (insertar_en_postgres cfg env registros).count Event.closeConn = 1 := by
  have hnoprint : ∀ (ev : Event), (∀ m : Msg, ev ≠ Event.print m) →
      ∀ msgs : List Msg, ((msgs.map Event.print).count ev) = 0 := by
    intro ev hev msgs
    rw [List.count_eq_zero]
    intro hmem
    obtain ⟨m, _, hm⟩ := List.mem_map.mp hmem
    exact hev m hm.symm
  refine ⟨⟨validationMsgs cfg env, rfl⟩, rfl, rfl, filter_exec cfg env registros, ?_, ?_, ?_⟩ <;>
  · unfold insertar_en_postgres
    simp only [List.count_append]
    rw [hnoprint _ (by intro m hm; exact Event.noConfusion hm) (validationMsgs cfg env)]
    simp [List.count_cons, List.count_nil, beq_iff_eq]

/-- C10: the warning path is total on empty reference sets: the
first-available helper returns the placeholder `"NINGUNO"` on the empty
list (and the head element otherwise, never an out-of-bounds access), and
when the sensor reference set comes back empty the loader's warning indeed
carries `"NINGUNO"`. -/
theorem C10_ninguno_con_tabla_vacia (cfg : Cfg) (env : DBEnv) (registros : List Row)
    (micros lineas fabricas : List String)
    (h1 : env.sensores = .ok []) (h2 : env.micros = .ok micros)
    (h3 : env.lineas = .ok lineas) (h4 : env.fabricas = .ok fabricas) :
    primeraDisponible [] = "NINGUNO" ∧
    (∀ (x : String) (l : List String), primeraDisponible (x :: l) = x) ∧
    Event.print (.advertencia cfg.id_sensor "sensor" "NINGUNO") ∈
      insertar_en_postgres cfg env registros := by
  refine ⟨rfl, fun x l => rfl, ?_⟩
  simp [insertar_en_postgres, validationMsgs, h1, h2, h3, h4, chk, primeraDisponible]

/-- Witness for C10 with an empty sensor reference set. -/
theorem C10_ninguno_con_tabla_vacia_witness :
    primeraDisponible [] = "NINGUNO" ∧
    Event.print (.advertencia "A1S01" "sensor" "NINGUNO") ∈
      insertar_en_postgres ⟨"A1S01", "A1M01", "A1", "A"⟩
        ⟨.ok [], .ok ["A1M01"], .ok ["A1"], .ok ["A"]⟩ [] :=
  ⟨(C10_ninguno_con_tabla_vacia ⟨"A1S01", "A1M01", "A1", "A"⟩
      ⟨.ok [], .ok ["A1M01"], .ok ["A1"], .ok ["A"]⟩ []
      ["A1M01"] ["A1"] ["A"] rfl rfl rfl rfl).1,
   (C10_ninguno_con_tabla_vacia ⟨"A1S01", "A1M01", "A1", "A"⟩
      ⟨.ok [], .ok ["A1M01"], .ok ["A1"], .ok ["A"]⟩ []
      ["A1M01"] ["A1"] ["A"] rfl rfl rfl rfl).2.2⟩

end Poblacion
